import Mathlib

/-!
Verification of the request/response wrapper and correlation-id subsystem of
`ros2-client` (`src/service/wrappers.rs`).

The embedding below translates the Rust source into Lean:
* raw byte buffers (`bytes::Bytes`) become `List Nat` (each entry one byte);
* the CDR (de)serialization primitives supplied by the `rustdds` crate are
  modelled from the spec's wire-format section (fixed little/big-endian
  layouts, failure on too-short buffers reported with expected vs actual
  size);
* the payload type parameter `R` together with its serde seed is modelled by
  explicit (de)serializer function parameters;
* `bytes::Bytes::split_off(at)` keeps `[0, at)` in `self` and returns the
  tail `[at, len)`; the source then deserializes the payload from `&bytes`,
  i.e. from the retained prefix, and the model mirrors this.
-/

/-- A raw byte buffer; each entry is one byte. -/
abbrev Bytes := List Nat

/-- CDR representation identifiers accepted by the service adapters. -/
inductive RepresentationIdentifier where
  | CDR_BE
  | CDR_LE
deriving DecidableEq, Repr

/-- Modelled from the spec: a 16-byte opaque endpoint identifier
(`rustdds::GUID`, external to src); kept as its raw byte layout. -/
abbrev GUID := Bytes

namespace SequenceNumber

/-- Modelled from the spec: the 64-bit sequence number's high 32-bit half
(arithmetic shift right by 32, i.e. floor division). -/
def high (sn : Int) : Int := Int.ediv sn (2 ^ 32)

/-- Modelled from the spec: the 64-bit sequence number's low 32-bit half. -/
def low (sn : Int) : Nat := (Int.emod sn (2 ^ 32)).toNat

/-- Modelled from the spec: recombine the two 32-bit wire halves. -/
def from_high_low (h : Int) (l : Nat) : Int := h * 2 ^ 32 + l

/-- Modelled from the spec: the reserved sentinel sequence number
(`SEQUENCENUMBER_UNKNOWN`, high = -1, low = 0). -/
def UNKNOWN : Int := -(2 ^ 32)

end SequenceNumber

/-- Modelled from the spec: transport-assigned `{writer_guid, sequence_number}`
naming one transmitted sample (`rustdds::SampleIdentity`). -/
structure SampleIdentity where
  writer_guid : GUID
  sequence_number : Int
deriving DecidableEq, Repr

/-- Modelled from the spec: the correlation id pairing a requester's endpoint
identifier with a sequence number (repo `request_id` module, not under src). -/
structure RmwRequestId where
  writer_guid : GUID
  sequence_number : Int
deriving DecidableEq, Repr

/-- Modelled from the spec: `RmwRequestId::from(SampleIdentity)` is a
field-for-field conversion. -/
def RmwRequestId.fromSampleIdentity (si : SampleIdentity) : RmwRequestId :=
  { writer_guid := si.writer_guid, sequence_number := si.sequence_number }

/-- Modelled from the spec: the converse conversion used when building headers
(`r_id.into()` in the source). -/
def RmwRequestId.toSampleIdentity (r : RmwRequestId) : SampleIdentity :=
  { writer_guid := r.writer_guid, sequence_number := r.sequence_number }

/-- Modelled from the spec: receive-side metadata (repo `message_info` module,
not under src): sender endpoint identifier, this sample's own identity, and an
optional related-sample identity. -/
structure MessageInfo where
  writer_guid : GUID
  sample_identity : SampleIdentity
  related_sample_identity : Option SampleIdentity
deriving DecidableEq, Repr

/-- Modelled from the spec: closed enumeration of the three wire conventions
(repo `service` module, not under src). -/
inductive ServiceMapping where
  | Basic
  | Enhanced
  | Cyclone
deriving DecidableEq, Repr

/-- Decode-failure taxonomy.  `tooShort` is modelled from the spec: a buffer
shorter than a fixed layout requires fails with the decode context and the
expected vs actual size (the underlying CDR codec lives in `rustdds`, external
to src).  `deserialization` carries the message strings produced by the
source's `read_error_deserialization!` macro invocations. -/
inductive ReadError where
  | tooShort (context : String) (expected : Nat) (actual : Nat)
  | deserialization (msg : String)
deriving DecidableEq, Repr

/-- Payload deserializer parameter: stands for the serde `DeserializeSeed`
together with `deserialize_from_cdr_with_decoder_and_rep_id`. -/
abbrev Seed (R : Type) := RepresentationIdentifier → Bytes → Except ReadError R

/-- Payload serializer parameter: stands for
`serialization::to_writer_with_rep_id` on the payload value (modelled as
total; the source propagates encoder errors unchanged). -/
abbrev Ser (R : Type) := RepresentationIdentifier → R → Bytes

/-- Little-endian base-256 digits of `n`, exactly `width` bytes. -/
def natToBytesLE (width n : Nat) : Bytes :=
  (List.range width).map fun i => n / 256 ^ i % 256

/-- Read a little-endian base-256 number from a byte list. -/
def bytesToNatLE (bs : Bytes) : Nat :=
  bs.foldr (fun b acc => b + 256 * acc) 0

/-- CDR encoding of an unsigned 32-bit value. -/
def u32ToBytes (e : RepresentationIdentifier) (n : Nat) : Bytes :=
  match e with
  | .CDR_LE => natToBytesLE 4 n
  | .CDR_BE => (natToBytesLE 4 n).reverse

/-- CDR decoding of an unsigned 32-bit value from (the first 4 bytes of) a
byte list. -/
def u32FromBytes (e : RepresentationIdentifier) (bs : Bytes) : Nat :=
  match e with
  | .CDR_LE => bytesToNatLE bs
  | .CDR_BE => bytesToNatLE bs.reverse

/-- CDR encoding of a signed 32-bit value (two's complement). -/
def i32ToBytes (e : RepresentationIdentifier) (h : Int) : Bytes :=
  u32ToBytes e (Int.emod h (2 ^ 32)).toNat

/-- CDR decoding of a signed 32-bit value (two's complement). -/
def i32FromBytes (e : RepresentationIdentifier) (bs : Bytes) : Int :=
  let n := u32FromBytes e bs
  if n < 2 ^ 31 then (n : Int) else (n : Int) - 2 ^ 32

/-- CDR wire shape of a sample identity: 16 GUID bytes, then the sequence
number as signed high half and unsigned low half (24 bytes, all fields
4-byte aligned). -/
def sampleIdentityToBytes (e : RepresentationIdentifier) (si : SampleIdentity) : Bytes :=
  si.writer_guid ++ i32ToBytes e (SequenceNumber.high si.sequence_number)
    ++ u32ToBytes e (SequenceNumber.low si.sequence_number)

/-- Decode the 24-byte sample-identity wire shape from the front of a buffer
(callers check the length bound first). -/
def sampleIdentityFromBytes (e : RepresentationIdentifier) (bs : Bytes) : SampleIdentity :=
  { writer_guid := bs.take 16,
    sequence_number :=
      SequenceNumber.from_high_low (i32FromBytes e ((bs.drop 16).take 4))
        (u32FromBytes e ((bs.drop 20).take 4)) }

/-- CDR encoding of a string: 32-bit length including the terminating NUL,
then the content bytes, then the NUL byte. -/
def cdrStringToBytes (e : RepresentationIdentifier) (s : Bytes) : Bytes :=
  u32ToBytes e (s.length + 1) ++ s ++ [0]

/-- `BasicRequestHeader` from the source: correlation id in sample-identity
wire shape plus the (always empty) instance name, kept as content bytes. -/
structure BasicRequestHeader where
  request_id : SampleIdentity
  instance_name : Bytes
deriving DecidableEq, Repr

/-- `BasicRequestHeader::new`: instance name hard-coded to the empty string. -/
def BasicRequestHeader.new (request_id : SampleIdentity) : BasicRequestHeader :=
  { request_id := request_id, instance_name := [] }

/-- `BasicReplyHeader` from the source: correlation id plus a 32-bit remote
exception code. -/
structure BasicReplyHeader where
  related_request_id : SampleIdentity
  remote_exception_code : Nat
deriving DecidableEq, Repr

/-- `BasicReplyHeader::new`: exception code hard-coded to 0 (`REMOTE_EX_OK`). -/
def BasicReplyHeader.new (related_request_id : SampleIdentity) : BasicReplyHeader :=
  { related_request_id := related_request_id, remote_exception_code := 0 }

/-- `CycloneHeader` from the source: last 8 bytes of the client GUID plus the
sequence number split into two 32-bit wire fields. -/
structure CycloneHeader where
  guid_second_half : Bytes
  sequence_number_high : Int
  sequence_number_low : Nat
deriving DecidableEq, Repr

/-- `CycloneHeader::new`: copies bytes `[8..16]` of the correlation id's
writer GUID and splits its sequence number into high and low halves. -/
def CycloneHeader.new (r_id : RmwRequestId) : CycloneHeader :=
  { guid_second_half := (r_id.writer_guid.drop 8).take 8,
    sequence_number_high := SequenceNumber.high r_id.sequence_number,
    sequence_number_low := SequenceNumber.low r_id.sequence_number }

/-- CDR encoding of `BasicRequestHeader` (sample identity, then string). -/
def basicRequestHeaderToBytes (e : RepresentationIdentifier) (h : BasicRequestHeader) : Bytes :=
  sampleIdentityToBytes e h.request_id ++ cdrStringToBytes e h.instance_name

/-- CDR encoding of `BasicReplyHeader` (sample identity, then u32 code). -/
def basicReplyHeaderToBytes (e : RepresentationIdentifier) (h : BasicReplyHeader) : Bytes :=
  sampleIdentityToBytes e h.related_request_id ++ u32ToBytes e h.remote_exception_code

/-- CDR encoding of `CycloneHeader` (8 GUID bytes, then the two sequence
number fields; 16 bytes total). -/
def cycloneHeaderToBytes (e : RepresentationIdentifier) (h : CycloneHeader) : Bytes :=
  h.guid_second_half.take 8 ++ i32ToBytes e h.sequence_number_high
    ++ u32ToBytes e h.sequence_number_low

/-- `deserialize_from_cdr_with_rep_id::<BasicRequestHeader>` modelled from the
spec's wire layout: 24 bytes of sample identity, 4 bytes of string length,
then the string data (content plus NUL).  Returns the header and the byte
count it consumed. -/
def basicRequestHeaderFromBytes (e : RepresentationIdentifier) (bs : Bytes) :
    Except ReadError (BasicRequestHeader × Nat) :=
  if bs.length < 28 then
    Except.error (ReadError.tooShort "BasicRequestHeader" 28 bs.length)
  else
    let len := u32FromBytes e ((bs.drop 24).take 4)
    if bs.length < 28 + len then
      Except.error (ReadError.tooShort "BasicRequestHeader" (28 + len) bs.length)
    else if len = 0 then
      Except.error (ReadError.deserialization "invalid CDR string length 0")
    else
      Except.ok
        ({ request_id := sampleIdentityFromBytes e bs,
           instance_name := (bs.drop 28).take (len - 1) }, 28 + len)

/-- `deserialize_from_cdr_with_rep_id::<BasicReplyHeader>` modelled from the
spec's wire layout: 24 bytes of sample identity plus a 32-bit exception code,
28 bytes in total. -/
def basicReplyHeaderFromBytes (e : RepresentationIdentifier) (bs : Bytes) :
    Except ReadError (BasicReplyHeader × Nat) :=
  if bs.length < 28 then
    Except.error (ReadError.tooShort "BasicReplyHeader" 28 bs.length)
  else
    Except.ok
      ({ related_request_id := sampleIdentityFromBytes e bs,
         remote_exception_code := u32FromBytes e ((bs.drop 24).take 4) }, 28)

/-- `deserialize_from_cdr_with_rep_id::<CycloneHeader>` modelled from the
spec's wire layout: 8 GUID bytes, 4-byte high half, 4-byte low half, 16 bytes
in total. -/
def cycloneHeaderFromBytes (e : RepresentationIdentifier) (bs : Bytes) :
    Except ReadError (CycloneHeader × Nat) :=
  if bs.length < 16 then
    Except.error (ReadError.tooShort "CycloneHeader" 16 bs.length)
  else
    Except.ok
      ({ guid_second_half := bs.take 8,
         sequence_number_high := i32FromBytes e ((bs.drop 8).take 4),
         sequence_number_low := u32FromBytes e ((bs.drop 12).take 4) }, 16)

/-- `RequestWrapper` from the source: the owned serialized bytes plus the
representation identifier (the payload type parameter is phantom there and
is supplied here at the `unwrap` call sites instead). -/
structure RequestWrapper where
  serialized_message : Bytes
  encoding : RepresentationIdentifier
deriving DecidableEq, Repr

/-- `Wrapper::from_bytes_and_ri` for requests: store the input bytes verbatim
together with the representation identifier. -/
def RequestWrapper.from_bytes_and_ri (input_bytes : Bytes)
    (encoding : RepresentationIdentifier) : RequestWrapper :=
  { serialized_message := input_bytes, encoding := encoding }

/-- `Wrapper::bytes` for requests: the owned bytes. -/
def RequestWrapper.bytes (w : RequestWrapper) : Bytes := w.serialized_message

/-- `ResponseWrapper` from the source, same shape as `RequestWrapper`. -/
structure ResponseWrapper where
  serialized_message : Bytes
  encoding : RepresentationIdentifier
deriving DecidableEq, Repr

/-- `Wrapper::from_bytes_and_ri` for responses. -/
def ResponseWrapper.from_bytes_and_ri (input_bytes : Bytes)
    (encoding : RepresentationIdentifier) : ResponseWrapper :=
  { serialized_message := input_bytes, encoding := encoding }

/-- `Wrapper::bytes` for responses. -/
def ResponseWrapper.bytes (w : ResponseWrapper) : Bytes := w.serialized_message

/-- `cyclone_unwrap_seed` from the source: decode the `CycloneHeader`, guard
on the buffer length, then `split_off(header_size)` — which keeps bytes
`[0, header_size)` in the buffer the payload is subsequently decoded from —
and return the correlation id built from the `writer_guid` argument as-is and
the header's two sequence-number fields. -/
def cyclone_unwrap_seed {R : Type} (serialized_message : Bytes) (writer_guid : GUID)
    (encoding : RepresentationIdentifier) (seed : Seed R) :
    Except ReadError (RmwRequestId × R) :=
  match cycloneHeaderFromBytes encoding serialized_message with
  | Except.error err => Except.error err
  | Except.ok (header, header_size) =>
    if serialized_message.length < header_size then
      Except.error (ReadError.deserialization "Service message too short")
    else
      match seed encoding (serialized_message.take header_size) with
      | Except.error err => Except.error err
      | Except.ok response =>
        Except.ok
          ({ writer_guid := writer_guid,
             sequence_number :=
               SequenceNumber.from_high_low header.sequence_number_high
                 header.sequence_number_low }, response)

/-- `RequestWrapper::unwrap_seed` from the source: Basic strips a
`BasicRequestHeader` (after `split_off` the payload is decoded from the
retained prefix) and takes the id from the header; Enhanced decodes the whole
buffer as payload and takes the id from metadata, with the sample's own
identity as fallback and the UNKNOWN-sequence patch; Cyclone delegates to
`cyclone_unwrap_seed` with the sender's writer GUID. -/
def RequestWrapper.unwrap_seed {R : Type} (w : RequestWrapper)
    (service_mapping : ServiceMapping) (message_info : MessageInfo) (seed : Seed R) :
    Except ReadError (RmwRequestId × R) :=
  match service_mapping with
  | .Basic =>
    match basicRequestHeaderFromBytes w.encoding w.serialized_message with
    | Except.error err => Except.error err
    | Except.ok (header, header_size) =>
      if w.serialized_message.length < header_size then
        Except.error (ReadError.deserialization "Service request too short")
      else
        match seed w.encoding (w.serialized_message.take header_size) with
        | Except.error err => Except.error err
        | Except.ok request =>
          Except.ok (RmwRequestId.fromSampleIdentity header.request_id, request)
  | .Enhanced =>
    match seed w.encoding w.serialized_message with
    | Except.error err => Except.error err
    | Except.ok request =>
      let rmw0 := RmwRequestId.fromSampleIdentity
        (message_info.related_sample_identity.getD message_info.sample_identity)
      let rmw_req_id :=
        if rmw0.sequence_number = SequenceNumber.UNKNOWN then
          { rmw0 with sequence_number := message_info.sample_identity.sequence_number }
        else rmw0
      Except.ok (rmw_req_id, request)
  | .Cyclone =>
    cyclone_unwrap_seed w.serialized_message message_info.writer_guid w.encoding seed

/-- `ResponseWrapper::unwrap_seed` from the source: Basic strips a
`BasicReplyHeader` (after `split_off` the payload is decoded from the
retained prefix); Enhanced decodes the whole buffer as payload and demands the
related-sample-identity metadata, erroring when it is absent; Cyclone splices
the client GUID from the first 8 bytes of `client_guid` and the last 8 bytes
of the sender's writer GUID, then delegates to `cyclone_unwrap_seed`. -/
def ResponseWrapper.unwrap_seed {R : Type} (w : ResponseWrapper)
    (service_mapping : ServiceMapping) (message_info : MessageInfo)
    (client_guid : GUID) (seed : Seed R) : Except ReadError (RmwRequestId × R) :=
  match service_mapping with
  | .Basic =>
    match basicReplyHeaderFromBytes w.encoding w.serialized_message with
    | Except.error err => Except.error err
    | Except.ok (header, header_size) =>
      if w.serialized_message.length < header_size then
        Except.error (ReadError.deserialization "Service response too short")
      else
        match seed w.encoding (w.serialized_message.take header_size) with
        | Except.error err => Except.error err
        | Except.ok response =>
          Except.ok (RmwRequestId.fromSampleIdentity header.related_request_id, response)
  | .Enhanced =>
    match seed w.encoding w.serialized_message with
    | Except.error err => Except.error err
    | Except.ok response =>
      match message_info.related_sample_identity with
      | some rsi => Except.ok (RmwRequestId.fromSampleIdentity rsi, response)
      | none =>
        Except.error (ReadError.deserialization
          "ServiceMapping=Enhanced, but response message did not have related_sample_identity parameter!")
  | .Cyclone =>
    let client_guid_bytes := client_guid.take 8 ++ (message_info.writer_guid.drop 8).take 8
    cyclone_unwrap_seed w.serialized_message client_guid_bytes w.encoding seed

/-- `RequestWrapper::new` from the source: encode the mapping's header (none
for Enhanced), then the payload, into one buffer. -/
def RequestWrapper.new {R : Type} (service_mapping : ServiceMapping)
    (r_id : RmwRequestId) (encoding : RepresentationIdentifier) (request : R)
    (ser : Ser R) : RequestWrapper :=
  let header_bytes : Bytes :=
    match service_mapping with
    | .Basic => basicRequestHeaderToBytes encoding (BasicRequestHeader.new r_id.toSampleIdentity)
    | .Enhanced => []
    | .Cyclone => cycloneHeaderToBytes encoding (CycloneHeader.new r_id)
  { serialized_message := header_bytes ++ ser encoding request, encoding := encoding }

/-- `ResponseWrapper::new` from the source: encode the mapping's header (none
for Enhanced), then the payload, into one buffer. -/
def ResponseWrapper.new {R : Type} (service_mapping : ServiceMapping)
    (r_id : RmwRequestId) (encoding : RepresentationIdentifier) (response : R)
    (ser : Ser R) : ResponseWrapper :=
  let header_bytes : Bytes :=
    match service_mapping with
    | .Basic => basicReplyHeaderToBytes encoding (BasicReplyHeader.new r_id.toSampleIdentity)
    | .Enhanced => []
    | .Cyclone => cycloneHeaderToBytes encoding (CycloneHeader.new r_id)
  { serialized_message := header_bytes ++ ser encoding response, encoding := encoding }

/-- `ServiceDeserializerAdapter::REPR_IDS` from the source. -/
def ServiceDeserializerAdapter.REPR_IDS : List RepresentationIdentifier :=
  [RepresentationIdentifier.CDR_BE, RepresentationIdentifier.CDR_LE]

/-- `DeserializerAdapter::supported_encodings` from the source. -/
def ServiceDeserializerAdapter.supported_encodings : List RepresentationIdentifier :=
  ServiceDeserializerAdapter.REPR_IDS

/-- `WrapperDecoder::decode_bytes` instantiated at `RequestWrapper`:
`Ok(RW::from_bytes_and_ri(input_bytes, encoding))`. -/
def WrapperDecoder.decode_bytes_request (input_bytes : Bytes)
    (encoding : RepresentationIdentifier) : Except ReadError RequestWrapper :=
  Except.ok (RequestWrapper.from_bytes_and_ri input_bytes encoding)

/-- `WrapperDecoder::decode_bytes` instantiated at `ResponseWrapper`. -/
def WrapperDecoder.decode_bytes_response (input_bytes : Bytes)
    (encoding : RepresentationIdentifier) : Except ReadError ResponseWrapper :=
  Except.ok (ResponseWrapper.from_bytes_and_ri input_bytes encoding)

/-- `SerializerAdapter::output_encoding` from the source: always CDR_LE. -/
def ServiceSerializerAdapter.output_encoding : RepresentationIdentifier :=
  RepresentationIdentifier.CDR_LE

/-- `SerializerAdapter::to_bytes` instantiated at `RequestWrapper`:
`Ok(value.bytes())` (the `WriteResult` error component `()` becomes `Unit`). -/
def ServiceSerializerAdapter.to_bytes_request (w : RequestWrapper) : Except Unit Bytes :=
  Except.ok w.bytes

/-- `SerializerAdapter::to_bytes` instantiated at `ResponseWrapper`. -/
def ServiceSerializerAdapter.to_bytes_response (w : ResponseWrapper) : Except Unit Bytes :=
  Except.ok w.bytes

/-- A concrete payload codec used for witnesses: an unsigned 32-bit value.
Fails with the expected vs actual size when fewer than 4 bytes remain (as the
CDR codec does) and otherwise reads the first 4 bytes. -/
def u32Seed : Seed Nat := fun e bs =>
  if bs.length < 4 then Except.error (ReadError.tooShort "u32" 4 bs.length)
  else Except.ok (u32FromBytes e (bs.take 4))

/-- The matching concrete payload serializer for witnesses. -/
def u32Ser : Ser Nat := fun e n => u32ToBytes e n

/-- Concrete 16-byte GUID `0x01..0x10` used in witnesses. -/
def guidClient : GUID := [1, 2, 3, 4, 5, 6, 7, 8, 9, 10, 11, 12, 13, 14, 15, 16]

/-- Concrete 16-byte sender GUID used in witnesses. -/
def guidSender : GUID := [21, 22, 23, 24, 25, 26, 27, 28, 29, 30, 31, 32, 33, 34, 35, 36]

/-- `guidSender` with its upper 8 bytes replaced (same lower 8 bytes). -/
def guidSenderAlt : GUID := [99, 98, 97, 96, 95, 94, 93, 92, 29, 30, 31, 32, 33, 34, 35, 36]

/-- All-zero 16-byte GUID. -/
def guidZero : GUID := List.replicate 16 0

/-- Helper: a successful `cyclone_unwrap_seed` returns the `writer_guid`
argument as-is and the sequence number recombined from the header's two
32-bit fields (buffer bytes `[8..12)` and `[12..16)`). -/
theorem cyclone_unwrap_seed_eq_ok {R : Type} {msg : Bytes} {g : GUID}
    {e : RepresentationIdentifier} {seed : Seed R} {rid : RmwRequestId} {x : R}
    (h : cyclone_unwrap_seed msg g e seed = Except.ok (rid, x)) :
    rid = { writer_guid := g,
            sequence_number :=
              SequenceNumber.from_high_low (i32FromBytes e ((msg.drop 8).take 4))
                (u32FromBytes e ((msg.drop 12).take 4)) } := by
  unfold cyclone_unwrap_seed cycloneHeaderFromBytes at h
  by_cases hlen : msg.length < 16
  · rw [if_pos hlen] at h
    exact absurd h (by simp)
  · rw [if_neg hlen] at h
    simp only [if_neg hlen] at h
    split at h
    · exact absurd h (by simp)
    · simp only [Except.ok.injEq, Prod.mk.injEq] at h
      exact h.1.symm

/-- Claim C1: for every client GUID `c`, sender writer GUID in metadata, and
well-formed Cyclone response buffer, `ResponseWrapper::unwrap_seed` with
mapping Cyclone returns a correlation id whose endpoint identifier is the
concatenation of the upper 8 bytes of `c` with the lower 8 bytes of the
sender's writer GUID, and the result is independent of the sender GUID's
upper 8 bytes. -/
theorem C1_cyclone_response_splice {R : Type} (w : ResponseWrapper)
    (mi mi' : MessageInfo) (c : GUID) (seed : Seed R) (rid : RmwRequestId) (x : R)
    (hw : mi.writer_guid.length = 16)
    (hdrop : mi'.writer_guid.drop 8 = mi.writer_guid.drop 8)
    (hok : w.unwrap_seed .Cyclone mi c seed = Except.ok (rid, x)) :
    rid.writer_guid = c.take 8 ++ mi.writer_guid.drop 8 ∧
    w.unwrap_seed .Cyclone mi' c seed = w.unwrap_seed .Cyclone mi c seed := by
  constructor
  · simp only [ResponseWrapper.unwrap_seed] at hok
    have h := cyclone_unwrap_seed_eq_ok hok
    have hlen : (mi.writer_guid.drop 8).length ≤ 8 := by
      rw [List.length_drop, hw]
    rw [h]
    simp [List.take_of_length_le hlen]
  · simp only [ResponseWrapper.unwrap_seed]
    rw [hdrop]

/-- Claim C2: for every well-formed Cyclone request buffer,
`RequestWrapper::unwrap_seed` with mapping Cyclone returns a correlation id
whose endpoint identifier equals the sender's writer GUID from the metadata
unmodified, and whose sequence number is recombined from the header's two
32-bit high/low fields (buffer bytes 8..12 and 12..16), never from the
metadata's sample identity (the whole result is unchanged under any change of
metadata that keeps the writer GUID). -/
theorem C2_cyclone_request_id {R : Type} (w : RequestWrapper)
    (mi mi' : MessageInfo) (seed : Seed R) (rid : RmwRequestId) (x : R)
    (hwg : mi'.writer_guid = mi.writer_guid)
    (hok : w.unwrap_seed .Cyclone mi seed = Except.ok (rid, x)) :
    rid.writer_guid = mi.writer_guid ∧
    rid.sequence_number =
      SequenceNumber.from_high_low
        (i32FromBytes w.encoding ((w.serialized_message.drop 8).take 4))
        (u32FromBytes w.encoding ((w.serialized_message.drop 12).take 4)) ∧
    w.unwrap_seed .Cyclone mi' seed = w.unwrap_seed .Cyclone mi seed := by
  simp only [RequestWrapper.unwrap_seed] at hok ⊢
  have h := cyclone_unwrap_seed_eq_ok hok
  exact ⟨by rw [h], by rw [h], by rw [hwg]⟩

/-- Claim C9: the decoded Cyclone header's 8-byte `guid_second_half` field is
never used in reconstructing the correlation id: two buffers that differ only
in their first 8 bytes yield, for fixed metadata, the same correlation id on
both the request and the response unwrap paths. -/
theorem C9_cyclone_header_guid_unused {R : Type} (b1 b2 : Bytes)
    (e : RepresentationIdentifier) (mi : MessageInfo) (c : GUID) (seed : Seed R)
    (rid1 rid2 rid3 rid4 : RmwRequestId) (x1 x2 x3 x4 : R)
    (hdrop : b1.drop 8 = b2.drop 8)
    (h1 : (RequestWrapper.mk b1 e).unwrap_seed .Cyclone mi seed = Except.ok (rid1, x1))
    (h2 : (RequestWrapper.mk b2 e).unwrap_seed .Cyclone mi seed = Except.ok (rid2, x2))
    (h3 : (ResponseWrapper.mk b1 e).unwrap_seed .Cyclone mi c seed = Except.ok (rid3, x3))
    (h4 : (ResponseWrapper.mk b2 e).unwrap_seed .Cyclone mi c seed = Except.ok (rid4, x4)) :
    rid1 = rid2 ∧ rid3 = rid4 := by
  have h12 : b1.drop 12 = b2.drop 12 := by
    have h := congrArg (List.drop 4) hdrop
    rw [List.drop_drop, List.drop_drop] at h
    exact h
  simp only [RequestWrapper.unwrap_seed] at h1 h2
  simp only [ResponseWrapper.unwrap_seed] at h3 h4
  have e1 := cyclone_unwrap_seed_eq_ok h1
  have e2 := cyclone_unwrap_seed_eq_ok h2
  have e3 := cyclone_unwrap_seed_eq_ok h3
  have e4 := cyclone_unwrap_seed_eq_ok h4
  constructor
  · rw [e1, e2, hdrop, h12]
  · rw [e3, e4, hdrop, h12]

/-- Claim C3: for a well-formed Enhanced request buffer, when the metadata's
related-sample-identity is present with endpoint identifier `g` and the
UNKNOWN sentinel sequence number while the sample's own identity has sequence
number `s`, `RequestWrapper::unwrap_seed` succeeds with correlation id
`{g, s}` (the UNKNOWN sequence number is silently overwritten, not an
error). -/
theorem C3_enhanced_unknown_patch {R : Type} (w : RequestWrapper)
    (mi : MessageInfo) (g : GUID) (s : Int) (seed : Seed R) (v : R)
    (hrsi : mi.related_sample_identity =
      some { writer_guid := g, sequence_number := SequenceNumber.UNKNOWN })
    (hs : mi.sample_identity.sequence_number = s)
    (hseed : seed w.encoding w.serialized_message = Except.ok v) :
    w.unwrap_seed .Enhanced mi seed =
      Except.ok ({ writer_guid := g, sequence_number := s }, v) := by
  simp [RequestWrapper.unwrap_seed, hseed, hrsi, RmwRequestId.fromSampleIdentity, hs]

/-- Claim C10: on the Enhanced response side the UNKNOWN-sequence-number
patch is not applied: a present related-sample-identity with the UNKNOWN
sentinel is returned as-is by `ResponseWrapper::unwrap_seed`. -/
theorem C10_enhanced_response_no_patch {R : Type} (w : ResponseWrapper)
    (mi : MessageInfo) (c g : GUID) (seed : Seed R) (v : R)
    (hrsi : mi.related_sample_identity =
      some { writer_guid := g, sequence_number := SequenceNumber.UNKNOWN })
    (hseed : seed w.encoding w.serialized_message = Except.ok v) :
    w.unwrap_seed .Enhanced mi c seed =
      Except.ok ({ writer_guid := g, sequence_number := SequenceNumber.UNKNOWN }, v) := by
  simp [ResponseWrapper.unwrap_seed, hseed, hrsi, RmwRequestId.fromSampleIdentity]

/-- Claim C4 (amended): for every Enhanced response whose metadata has no
related-sample-identity, `ResponseWrapper::unwrap_seed` never succeeds (so it
never falls back to the sample's own identity), and whenever the payload
bytes themselves decode, the error returned is exactly the missing-metadata
error; an undecodable payload yields that payload decode error instead. -/
theorem C4_enhanced_missing_metadata {R : Type} (w : ResponseWrapper)
    (mi : MessageInfo) (c : GUID) (seed : Seed R)
    (hnone : mi.related_sample_identity = none) :
    (∀ rid : RmwRequestId, ∀ x : R,
        w.unwrap_seed .Enhanced mi c seed ≠ Except.ok (rid, x)) ∧
    (∀ v : R, seed w.encoding w.serialized_message = Except.ok v →
        w.unwrap_seed .Enhanced mi c seed =
          Except.error (ReadError.deserialization
            "ServiceMapping=Enhanced, but response message did not have related_sample_identity parameter!")) := by
  constructor
  · intro rid x hok
    simp only [ResponseWrapper.unwrap_seed, hnone] at hok
    split at hok
    · exact absurd hok (by simp)
    · exact absurd hok (by simp)
  · intro v hv
    simp [ResponseWrapper.unwrap_seed, hv, hnone]

/-- Claim C4 (counterexample to the claim as stated): with no
related-sample-identity but payload bytes that fail to decode (an empty
buffer read as a `u32`), the Enhanced response unwrap returns the payload's
own decode error, not the missing-metadata error. -/
theorem C4_counterexample :
    (ResponseWrapper.mk [] RepresentationIdentifier.CDR_LE).unwrap_seed .Enhanced
        { writer_guid := guidZero,
          sample_identity := { writer_guid := guidZero, sequence_number := 1 },
          related_sample_identity := none } guidZero u32Seed
      = Except.error (ReadError.tooShort "u32" 4 0) ∧
    ReadError.tooShort "u32" 4 0 ≠ ReadError.deserialization
      "ServiceMapping=Enhanced, but response message did not have related_sample_identity parameter!" := by
  exact ⟨rfl, by decide⟩

/-- Claim C5 (code evaluation at the failing input): wrapping the `u32`
payload 5 with mapping Basic, correlation id `{16 zero bytes, 7}` and CDR
little-endian, then unwrapping, returns payload 0 instead of 5 — after a
successful header decode the source calls `Bytes::split_off(header_size)`,
which keeps the 29-byte header prefix in the buffer the payload is then
decoded from (so the decoded `u32` is the first 4 GUID bytes), instead of
keeping the remainder as `split_to` would. -/
theorem C5_basic_roundtrip_code_eval :
    (RequestWrapper.new .Basic { writer_guid := guidZero, sequence_number := 7 }
        RepresentationIdentifier.CDR_LE 5 u32Ser).unwrap_seed .Basic
        { writer_guid := guidZero,
          sample_identity := { writer_guid := guidZero, sequence_number := 1 },
          related_sample_identity := none } u32Seed
      = Except.ok ({ writer_guid := guidZero, sequence_number := 7 }, 0) ∧
    (Except.ok ({ writer_guid := guidZero, sequence_number := 7 }, 0) :
        Except ReadError (RmwRequestId × Nat)) ≠
      Except.ok ({ writer_guid := guidZero, sequence_number := 7 }, 5) := by
  constructor
  · rfl
  · simp

/-- Claim C6: with mapping Enhanced, `RequestWrapper::new` and
`ResponseWrapper::new` produce exactly the encoded payload bytes, with no
header prepended, for every correlation id, representation identifier and
payload value. -/
theorem C6_enhanced_writes_no_header {R : Type} (r_id : RmwRequestId)
    (e : RepresentationIdentifier) (v : R) (ser : Ser R) :
    (RequestWrapper.new .Enhanced r_id e v ser).serialized_message = ser e v ∧
    (ResponseWrapper.new .Enhanced r_id e v ser).serialized_message = ser e v :=
  ⟨rfl, rfl⟩

/-- Claim C7: a buffer shorter than the fixed header layout of its mapping
(28 bytes for the fixed portion of the Basic headers, 16 bytes for the
Cyclone header) fails to unwrap with a decode error tagged with the decoded
header (identifying the mapping) and the expected vs actual size, on both the
request and the response paths. -/
theorem C7_too_short_buffer {R : Type} (bs : Bytes) (e : RepresentationIdentifier)
    (mi : MessageInfo) (c : GUID) (seed : Seed R) :
    (bs.length < 28 →
      (RequestWrapper.mk bs e).unwrap_seed .Basic mi seed =
        Except.error (ReadError.tooShort "BasicRequestHeader" 28 bs.length)) ∧
    (bs.length < 28 →
      (ResponseWrapper.mk bs e).unwrap_seed .Basic mi c seed =
        Except.error (ReadError.tooShort "BasicReplyHeader" 28 bs.length)) ∧
    (bs.length < 16 →
      (RequestWrapper.mk bs e).unwrap_seed .Cyclone mi seed =
        Except.error (ReadError.tooShort "CycloneHeader" 16 bs.length)) ∧
    (bs.length < 16 →
      (ResponseWrapper.mk bs e).unwrap_seed .Cyclone mi c seed =
        Except.error (ReadError.tooShort "CycloneHeader" 16 bs.length)) := by
  refine ⟨fun h => ?_, fun h => ?_, fun h => ?_, fun h => ?_⟩ <;>
    simp [RequestWrapper.unwrap_seed, ResponseWrapper.unwrap_seed,
      basicRequestHeaderFromBytes, basicReplyHeaderFromBytes,
      cycloneHeaderFromBytes, cyclone_unwrap_seed, h]

/-- Claim C8: the serializer adapter's encode returns the wrapper's owned
bytes unchanged and always reports CDR little-endian as the output
representation; the deserializer adapter accepts exactly CDR big-endian and
CDR little-endian, and its decoder stores the input bytes verbatim in the
wrapper without interpreting them. -/
theorem C8_adapter_pass_through :
    (∀ w : RequestWrapper,
      ServiceSerializerAdapter.to_bytes_request w = Except.ok w.serialized_message) ∧
    (∀ w : ResponseWrapper,
      ServiceSerializerAdapter.to_bytes_response w = Except.ok w.serialized_message) ∧
    ServiceSerializerAdapter.output_encoding = RepresentationIdentifier.CDR_LE ∧
    ServiceDeserializerAdapter.supported_encodings =
      [RepresentationIdentifier.CDR_BE, RepresentationIdentifier.CDR_LE] ∧
    (∀ (bs : Bytes) (e : RepresentationIdentifier),
      WrapperDecoder.decode_bytes_request bs e =
        Except.ok { serialized_message := bs, encoding := e }) ∧
    (∀ (bs : Bytes) (e : RepresentationIdentifier),
      WrapperDecoder.decode_bytes_response bs e =
        Except.ok { serialized_message := bs, encoding := e }) :=
  ⟨fun _ => rfl, fun _ => rfl, rfl, rfl, fun _ _ => rfl, fun _ _ => rfl⟩

/-- Witness for C1 at a concrete response buffer, client GUID and sender
GUIDs differing only in their upper 8 bytes. -/
theorem C1_witness :
    ({ writer_guid := [1, 2, 3, 4, 5, 6, 7, 8, 29, 30, 31, 32, 33, 34, 35, 36],
       sequence_number := 0 } : RmwRequestId).writer_guid
      = guidClient.take 8 ++ guidSender.drop 8 ∧
    (ResponseWrapper.mk (List.replicate 16 0) RepresentationIdentifier.CDR_LE).unwrap_seed
        .Cyclone
        { writer_guid := guidSenderAlt,
          sample_identity := { writer_guid := guidSender, sequence_number := 1 },
          related_sample_identity := none } guidClient u32Seed
      = (ResponseWrapper.mk (List.replicate 16 0) RepresentationIdentifier.CDR_LE).unwrap_seed
        .Cyclone
        { writer_guid := guidSender,
          sample_identity := { writer_guid := guidSender, sequence_number := 1 },
          related_sample_identity := none } guidClient u32Seed :=
  C1_cyclone_response_splice
    (ResponseWrapper.mk (List.replicate 16 0) RepresentationIdentifier.CDR_LE)
    { writer_guid := guidSender,
      sample_identity := { writer_guid := guidSender, sequence_number := 1 },
      related_sample_identity := none }
    { writer_guid := guidSenderAlt,
      sample_identity := { writer_guid := guidSender, sequence_number := 1 },
      related_sample_identity := none }
    guidClient u32Seed
    { writer_guid := [1, 2, 3, 4, 5, 6, 7, 8, 29, 30, 31, 32, 33, 34, 35, 36],
      sequence_number := 0 }
    0 rfl rfl rfl

/-- Witness for C2 at a concrete request buffer whose header carries
sequence number high 0 and low 5, with two metadata values sharing the
sender GUID. -/
theorem C2_witness :
    ({ writer_guid := guidSender, sequence_number := 5 } : RmwRequestId).writer_guid
      = guidSender ∧
    ({ writer_guid := guidSender, sequence_number := 5 } : RmwRequestId).sequence_number
      = SequenceNumber.from_high_low
          (i32FromBytes RepresentationIdentifier.CDR_LE [0, 0, 0, 0])
          (u32FromBytes RepresentationIdentifier.CDR_LE [5, 0, 0, 0]) ∧
    (RequestWrapper.mk [0, 0, 0, 0, 0, 0, 0, 0, 0, 0, 0, 0, 5, 0, 0, 0]
        RepresentationIdentifier.CDR_LE).unwrap_seed .Cyclone
        { writer_guid := guidSender,
          sample_identity := { writer_guid := guidZero, sequence_number := 3 },
          related_sample_identity :=
            some { writer_guid := guidZero, sequence_number := 4 } } u32Seed
      = (RequestWrapper.mk [0, 0, 0, 0, 0, 0, 0, 0, 0, 0, 0, 0, 5, 0, 0, 0]
          RepresentationIdentifier.CDR_LE).unwrap_seed .Cyclone
        { writer_guid := guidSender,
          sample_identity := { writer_guid := guidSender, sequence_number := 1 },
          related_sample_identity := none } u32Seed :=
  C2_cyclone_request_id
    (RequestWrapper.mk [0, 0, 0, 0, 0, 0, 0, 0, 0, 0, 0, 0, 5, 0, 0, 0]
      RepresentationIdentifier.CDR_LE)
    { writer_guid := guidSender,
      sample_identity := { writer_guid := guidSender, sequence_number := 1 },
      related_sample_identity := none }
    { writer_guid := guidSender,
      sample_identity := { writer_guid := guidZero, sequence_number := 3 },
      related_sample_identity := some { writer_guid := guidZero, sequence_number := 4 } }
    u32Seed { writer_guid := guidSender, sequence_number := 5 } 0 rfl rfl

/-- Witness for C3 at a concrete Enhanced request with a related identity
carrying the UNKNOWN sentinel and a sample identity with sequence number 9. -/
theorem C3_witness :
    (RequestWrapper.mk [5, 0, 0, 0] RepresentationIdentifier.CDR_LE).unwrap_seed .Enhanced
        { writer_guid := guidSender,
          sample_identity := { writer_guid := guidSender, sequence_number := 9 },
          related_sample_identity :=
            some { writer_guid := guidClient, sequence_number := SequenceNumber.UNKNOWN } }
        u32Seed
      = Except.ok ({ writer_guid := guidClient, sequence_number := 9 }, 5) :=
  C3_enhanced_unknown_patch
    (RequestWrapper.mk [5, 0, 0, 0] RepresentationIdentifier.CDR_LE)
    { writer_guid := guidSender,
      sample_identity := { writer_guid := guidSender, sequence_number := 9 },
      related_sample_identity :=
        some { writer_guid := guidClient, sequence_number := SequenceNumber.UNKNOWN } }
    guidClient 9 u32Seed 5 rfl rfl rfl

/-- Witness for the amended C4 at a concrete Enhanced response that decodes
as a `u32` but carries no related-sample-identity. -/
theorem C4_witness :
    (ResponseWrapper.mk [7, 0, 0, 0] RepresentationIdentifier.CDR_LE).unwrap_seed .Enhanced
        { writer_guid := guidSender,
          sample_identity := { writer_guid := guidSender, sequence_number := 2 },
          related_sample_identity := none } guidClient u32Seed
      = Except.error (ReadError.deserialization
          "ServiceMapping=Enhanced, but response message did not have related_sample_identity parameter!") :=
  (C4_enhanced_missing_metadata
    (ResponseWrapper.mk [7, 0, 0, 0] RepresentationIdentifier.CDR_LE)
    { writer_guid := guidSender,
      sample_identity := { writer_guid := guidSender, sequence_number := 2 },
      related_sample_identity := none }
    guidClient u32Seed rfl).2 7 rfl

/-- Witness for C7 at a concrete 3-byte buffer, shorter than every fixed
header layout. -/
theorem C7_witness :
    ((RequestWrapper.mk [0, 0, 0] RepresentationIdentifier.CDR_LE).unwrap_seed .Basic
        { writer_guid := guidZero,
          sample_identity := { writer_guid := guidZero, sequence_number := 1 },
          related_sample_identity := none } u32Seed
      = Except.error (ReadError.tooShort "BasicRequestHeader" 28 3)) ∧
    ((ResponseWrapper.mk [0, 0, 0] RepresentationIdentifier.CDR_LE).unwrap_seed .Basic
        { writer_guid := guidZero,
          sample_identity := { writer_guid := guidZero, sequence_number := 1 },
          related_sample_identity := none } guidClient u32Seed
      = Except.error (ReadError.tooShort "BasicReplyHeader" 28 3)) ∧
    ((RequestWrapper.mk [0, 0, 0] RepresentationIdentifier.CDR_LE).unwrap_seed .Cyclone
        { writer_guid := guidZero,
          sample_identity := { writer_guid := guidZero, sequence_number := 1 },
          related_sample_identity := none } u32Seed
      = Except.error (ReadError.tooShort "CycloneHeader" 16 3)) ∧
    ((ResponseWrapper.mk [0, 0, 0] RepresentationIdentifier.CDR_LE).unwrap_seed .Cyclone
        { writer_guid := guidZero,
          sample_identity := { writer_guid := guidZero, sequence_number := 1 },
          related_sample_identity := none } guidClient u32Seed
      = Except.error (ReadError.tooShort "CycloneHeader" 16 3)) := by
  have h := C7_too_short_buffer (R := Nat) [0, 0, 0] RepresentationIdentifier.CDR_LE
    { writer_guid := guidZero,
      sample_identity := { writer_guid := guidZero, sequence_number := 1 },
      related_sample_identity := none } guidClient u32Seed
  exact ⟨h.1 (by decide), h.2.1 (by decide), h.2.2.1 (by decide), h.2.2.2 (by decide)⟩

/-- Witness for C9 at two concrete 16-byte Cyclone buffers that differ
exactly in their first 8 bytes. -/
theorem C9_witness :
    ({ writer_guid := guidSender, sequence_number := 0 } : RmwRequestId)
      = { writer_guid := guidSender, sequence_number := 0 } ∧
    ({ writer_guid := [1, 2, 3, 4, 5, 6, 7, 8, 29, 30, 31, 32, 33, 34, 35, 36],
       sequence_number := 0 } : RmwRequestId)
      = { writer_guid := [1, 2, 3, 4, 5, 6, 7, 8, 29, 30, 31, 32, 33, 34, 35, 36],
          sequence_number := 0 } :=
  C9_cyclone_header_guid_unused (List.replicate 16 0)
    [1, 1, 1, 1, 1, 1, 1, 1, 0, 0, 0, 0, 0, 0, 0, 0]
    RepresentationIdentifier.CDR_LE
    { writer_guid := guidSender,
      sample_identity := { writer_guid := guidSender, sequence_number := 1 },
      related_sample_identity := none }
    guidClient u32Seed
    { writer_guid := guidSender, sequence_number := 0 }
    { writer_guid := guidSender, sequence_number := 0 }
    { writer_guid := [1, 2, 3, 4, 5, 6, 7, 8, 29, 30, 31, 32, 33, 34, 35, 36],
      sequence_number := 0 }
    { writer_guid := [1, 2, 3, 4, 5, 6, 7, 8, 29, 30, 31, 32, 33, 34, 35, 36],
      sequence_number := 0 }
    0 16843009 0 16843009 rfl rfl rfl rfl rfl

/-- Witness for C10 at a concrete Enhanced response whose related identity
carries the UNKNOWN sentinel. -/
theorem C10_witness :
    (ResponseWrapper.mk [3, 0, 0, 0] RepresentationIdentifier.CDR_LE).unwrap_seed .Enhanced
        { writer_guid := guidSender,
          sample_identity := { writer_guid := guidSender, sequence_number := 2 },
          related_sample_identity :=
            some { writer_guid := guidClient, sequence_number := SequenceNumber.UNKNOWN } }
        guidZero u32Seed
      = Except.ok ({ writer_guid := guidClient, sequence_number := SequenceNumber.UNKNOWN }, 3) :=
  C10_enhanced_response_no_patch
    (ResponseWrapper.mk [3, 0, 0, 0] RepresentationIdentifier.CDR_LE)
    { writer_guid := guidSender,
      sample_identity := { writer_guid := guidSender, sequence_number := 2 },
      related_sample_identity :=
        some { writer_guid := guidClient, sequence_number := SequenceNumber.UNKNOWN } }
    guidZero guidClient u32Seed 3 rfl rfl
